import Mathlib

/-!
Verification of the thinking-tag separation parser (`thinking_parser.py`).

The parser splits a language model's raw output into a "thinking" segment
and an "answer" segment, recovering from malformed delimiter tags.  We embed
the parser shallowly: strings are lists of characters, and each regular
expression of the source is replaced by an explicit executable search
function with the same leftmost/non-greedy matching semantics (justified
case by case in the comments below).  Whitespace is modelled by the six
ASCII whitespace characters recognised by Python's `\s` and `str.strip`;
the non-ASCII Unicode whitespace characters Python additionally recognises
play no role in any statement below.
-/

namespace ThinkingParser

/-- Strings are modelled as lists of characters. -/
abbrev Str := List Char

/-- ASCII fragment of Python whitespace (`str.strip`, regex `\s`). -/
def isSpace (c : Char) : Bool :=
  c = ' ' || c = '\t' || c = '\n' || c = '\r' || c = '\x0b' || c = '\x0c'

/-- The opening delimiter token `<think>` (7 characters). -/
def openerTok : Str := "<think>".data

/-- The closing delimiter token `</think>` (8 characters). -/
def closerTok : Str := "</think>".data

/-- The fixed placeholder sentence substituted for an empty answer
(source: `"応答が生成されました。"`). -/
def placeholder : Str := "応答が生成されました。".data

/-- Python `str.strip()`: remove whitespace from both ends. -/
def pyStrip (l : Str) : Str :=
  ((l.dropWhile isSpace).reverse.dropWhile isSpace).reverse

/-- Index of the leftmost occurrence of `pat` as a contiguous substring. -/
def findSub (pat : Str) : Str → Option Nat
  | [] => if pat.isPrefixOf ([] : Str) then some 0 else none
  | c :: r => if pat.isPrefixOf (c :: r) then some 0 else (findSub pat r).map (· + 1)

/-- `pat` occurs as a contiguous substring of `s`. -/
def containsTok (pat s : Str) : Bool := (findSub pat s).isSome

/-- One pass of `re.sub(r'</think>\s*', '', s)`: delete every occurrence of
the closing token together with the maximal whitespace run following it.
The recursion is indexed by fuel; each step strictly shortens the list, so
fuel `s.length` is always sufficient (at fuel `0` the list is empty). -/
def subClosersAux : Nat → Str → Str
  | 0, _ => []
  | _ + 1, [] => []
  | fuel + 1, c :: r =>
    if closerTok.isPrefixOf (c :: r) then
      subClosersAux fuel (((c :: r).drop 8).dropWhile isSpace)
    else
      c :: subClosersAux fuel r

/-- `re.sub(r'</think>\s*', '', s)` from the dangling-closer branch. -/
def subClosers (s : Str) : Str := subClosersAux s.length s

/-- Where the anchor `$` ends an unterminated capture: just before a single
trailing newline, otherwise at the end of the string. -/
def flexCap (rest : Str) : Str :=
  if rest.getLast? = some '\n' then rest.dropLast else rest

/-- A successful regex match: start offset of the whole match, the text of
capture group 1, and the end offset of the whole match. -/
structure TagMatch where
  start : Nat
  grp : Str
  stop : Nat
deriving Repr, DecidableEq

/-- `re.search(r'<think>(.*?)</think>', s, re.DOTALL)`.  The leftmost match
begins at the first opener that is followed by a closer; if the first opener
has no closer after it, no later opener does either, so it suffices to look
for a closer after the first opener.  The lazy group ends at the first
closer after that opener. -/
def searchThink (s : Str) : Option TagMatch :=
  match findSub openerTok s with
  | none => none
  | some i =>
    let rest := s.drop (i + 7)
    match findSub closerTok rest with
    | none => none
    | some p => some ⟨i, rest.take p, i + 7 + p + 8⟩

/-- `re.search(r'<think>(.*?)(?:</think>|$)', s, re.DOTALL)`.  It matches at
the first opener; the lazy group ends at the first closer after it if one
exists (a closer position always precedes every position where `$` can
match), and otherwise at the position of `$` (before a single trailing
newline, or at the end of the string). -/
def searchFlexible (s : Str) : Option TagMatch :=
  match findSub openerTok s with
  | none => none
  | some i =>
    let rest := s.drop (i + 7)
    match findSub closerTok rest with
    | some p => some ⟨i, rest.take p, i + 7 + p + 8⟩
    | none =>
      let cap := flexCap rest
      some ⟨i, cap, i + 7 + cap.length⟩

/-- `re.search(r'<think>(.*?)(?=\n\n|\Z)', s, re.DOTALL)`.  The lazy group
ends at the first double line-break after the opener, or at the end of the
string; the lookahead is zero-width, so the match ends with the group. -/
def searchUnclosed (s : Str) : Option TagMatch :=
  match findSub openerTok s with
  | none => none
  | some i =>
    let rest := s.drop (i + 7)
    match findSub ('\n' :: '\n' :: []) rest with
    | some q => some ⟨i, rest.take q, i + 7 + q⟩
    | none => some ⟨i, rest, i + 7 + rest.length⟩

/-- The cascade of the three pattern searches of `parse_response`
(lines 54-65 of the source): the well-formed pattern, then the flexible
pattern, then the double-line-break pattern. -/
def searchChain (s : Str) : Option TagMatch :=
  match searchThink s with
  | some m => some m
  | none =>
    match searchFlexible s with
    | some m => some m
    | none => searchUnclosed s

/-- Capture group 1 of `re.search(r'^.*?</think>\s*\n\s*(.*)$', s, re.DOTALL)`.
The engine takes the first closer whose following maximal whitespace run
contains a newline (backtracking past closers where it does not); `\s*\n\s*`
then consumes that whole run (greedily up to the last newline of the run and
then the remaining whitespace), and the greedy `(.*)$` captures the rest of
the string. -/
def contentAfter : Str → Option Str
  | [] => none
  | c :: r =>
    if closerTok.isPrefixOf (c :: r) then
      let rest := (c :: r).drop 8
      let w := rest.takeWhile isSpace
      if w.contains '\n' then some (rest.drop w.length) else contentAfter r
    else contentAfter r

/-- The answer-fallback idiom of the source: substitute the placeholder
sentence for an empty answer. -/
def orPlaceholder (a : Str) : Str := if a = [] then placeholder else a

/-- Output record of `ThinkingParser.parse_response`. -/
structure ParseResult where
  has_thinking : Bool
  thinking : Str
  answer : Str
  original : Str
deriving Repr, DecidableEq

/-- Output record of `ThinkingParser.format_for_frontend`; the `thinking`
field is `Option`-valued because the source puts Python `None` there when
`has_thinking` is false. -/
structure FormattedResponse where
  message : Str
  thinking : Option Str
  has_thinking : Bool
  original_response : Str
deriving Repr, DecidableEq

/-- `ThinkingParser.parse_response` (lines 25-95 of the source).
The branches, in order: the dangling-closer special case (input starts with
the closing token); the three-pattern search cascade with its common match
branch; the malformed-interior case (no pattern matched: leading text before
a closer becomes thinking when the content pattern also matches); and the
no-match passthrough, which returns the initial result record. -/
def parse_response (response : Str) : ParseResult :=
  if closerTok.isPrefixOf response then
    { has_thinking := false, thinking := [],
      answer := orPlaceholder (pyStrip (subClosers response)),
      original := response }
  else
    match searchChain response with
    | some m =>
      { has_thinking := true, thinking := pyStrip m.grp,
        answer := orPlaceholder (pyStrip (response.take m.start ++ response.drop m.stop)),
        original := response }
    | none =>
      match findSub closerTok response with
      | some p =>
        if pyStrip (response.take p) = [] then
          { has_thinking := false, thinking := [], answer := response, original := response }
        else
          match contentAfter response with
          | some g =>
            { has_thinking := true, thinking := pyStrip (response.take p),
              answer := orPlaceholder (pyStrip g),
              original := response }
          | none =>
            { has_thinking := false, thinking := [], answer := response, original := response }
      | none =>
        { has_thinking := false, thinking := [], answer := response, original := response }

/-- `ThinkingParser.format_for_frontend` (lines 97-112 of the source). -/
def format_for_frontend (p : ParseResult) : FormattedResponse :=
  { message := p.answer,
    thinking := if p.has_thinking then some p.thinking else none,
    has_thinking := p.has_thinking,
    original_response := p.original }

/-- Module-level convenience function `parse_thinking_response`. -/
def parse_thinking_response (response : Str) : ParseResult := parse_response response

-- Sanity checks of the embedding against the behaviour of the source
-- (ground truth obtained from the regular expressions' documented
-- leftmost / non-greedy semantics, input by input).

example : parse_response "".data = ⟨false, [], [], []⟩ := by decide

example : parse_response "Hello world".data =
    ⟨false, [], "Hello world".data, "Hello world".data⟩ := by decide

example : parse_response "<think>T</think>A".data =
    ⟨true, "T".data, "A".data, "<think>T</think>A".data⟩ := by decide

example : parse_response "<think>T</think>".data =
    ⟨true, "T".data, placeholder, "<think>T</think>".data⟩ := by decide

example : parse_response "<think>ab\n\ncd".data =
    ⟨true, "ab\n\ncd".data, placeholder, "<think>ab\n\ncd".data⟩ := by decide

example : parse_response "<think>abc\n".data =
    ⟨true, "abc".data, placeholder, "<think>abc\n".data⟩ := by decide

example : parse_response "</think>\n\n</think>\n\nHello world".data =
    ⟨false, [], "Hello world".data, "</think>\n\n</think>\n\nHello world".data⟩ := by decide

example : parse_response "</think>".data =
    ⟨false, [], placeholder, "</think>".data⟩ := by decide

example : parse_response " </think>Hello".data =
    ⟨false, [], " </think>Hello".data, " </think>Hello".data⟩ := by decide

example : parse_response "Notes</think>\nFinal answer".data =
    ⟨true, "Notes".data, "Final answer".data, "Notes</think>\nFinal answer".data⟩ := by
  decide

example : parse_response "A</think>B<think>C".data =
    ⟨true, "C".data, "A</think>B".data, "A</think>B<think>C".data⟩ := by decide

example : parse_response "</think>a<think>T</think>b".data =
    ⟨false, [], "a<think>Tb".data, "</think>a<think>T</think>b".data⟩ := by decide

example : parse_response "<think> \n </think>Answer text".data =
    ⟨true, [], "Answer text".data, "<think> \n </think>Answer text".data⟩ := by decide

example : parse_response "x</think>".data =
    ⟨false, [], "x</think>".data, "x</think>".data⟩ := by decide

example : parse_response "A</think>B\nC</think>\nD".data =
    ⟨true, "A".data, "D".data, "A</think>B\nC</think>\nD".data⟩ := by decide

example : parse_response "<think></think>".data =
    ⟨true, [], placeholder, "<think></think>".data⟩ := by decide

example : parse_response "a<think>b</think>c<think>d</think>e".data =
    ⟨true, "b".data, "ac<think>d</think>e".data,
      "a<think>b</think>c<think>d</think>e".data⟩ := by decide

example : parse_response "\n</think>Hello".data =
    ⟨false, [], "\n</think>Hello".data, "\n</think>Hello".data⟩ := by decide

example : parse_response "<think>t</think>\n\nanswer here".data =
    ⟨true, "t".data, "answer here".data, "<think>t</think>\n\nanswer here".data⟩ := by
  decide

-- General helper lemmas shared by the claim theorems.

lemma placeholder_ne_nil : placeholder ≠ [] := by decide

lemma orPlaceholder_ne_nil (a : Str) : orPlaceholder a ≠ [] := by
  unfold orPlaceholder
  split
  · exact placeholder_ne_nil
  · assumption

lemma isSome_findSub_of_isPrefixOf (pat s : Str) (h : pat.isPrefixOf s = true) :
    (findSub pat s).isSome := by
  cases s with
  | nil => simp [findSub, h]
  | cons c r => simp [findSub, h]

lemma isPrefixOf_eq_false_of_findSub_eq_none (pat s : Str)
    (h : findSub pat s = none) : pat.isPrefixOf s = false := by
  cases hb : pat.isPrefixOf s
  · rfl
  · have hs := isSome_findSub_of_isPrefixOf pat s hb
    rw [h] at hs
    simp at hs

-- Branch characterisations of `parse_response`, one per resolution path.

lemma parse_dangling (s : Str) (h : closerTok.isPrefixOf s = true) :
    parse_response s =
      ⟨false, [], orPlaceholder (pyStrip (subClosers s)), s⟩ := by
  unfold parse_response
  simp [h]

lemma parse_pair (s : Str) (i p : Nat)
    (hpre : closerTok.isPrefixOf s = false)
    (hi : findSub openerTok s = some i)
    (hp : findSub closerTok (s.drop (i + 7)) = some p) :
    parse_response s =
      ⟨true, pyStrip ((s.drop (i + 7)).take p),
        orPlaceholder (pyStrip (s.take i ++ s.drop (i + 7 + p + 8))), s⟩ := by
  unfold parse_response searchChain searchThink
  simp [hpre, hi, hp]

lemma parse_unterminated (s : Str) (i : Nat)
    (hpre : closerTok.isPrefixOf s = false)
    (hi : findSub openerTok s = some i)
    (hn : findSub closerTok (s.drop (i + 7)) = none) :
    parse_response s =
      ⟨true, pyStrip (flexCap (s.drop (i + 7))),
        orPlaceholder (pyStrip
          (s.take i ++ s.drop (i + 7 + (flexCap (s.drop (i + 7))).length))),
        s⟩ := by
  unfold parse_response searchChain searchThink searchFlexible
  simp [hpre, hi, hn]

lemma parse_interior (s : Str) (p : Nat) (g : Str)
    (hpre : closerTok.isPrefixOf s = false)
    (ho : findSub openerTok s = none)
    (hp : findSub closerTok s = some p)
    (ht : pyStrip (s.take p) ≠ [])
    (hg : contentAfter s = some g) :
    parse_response s =
      ⟨true, pyStrip (s.take p), orPlaceholder (pyStrip g), s⟩ := by
  unfold parse_response searchChain searchThink searchFlexible searchUnclosed
  simp [hpre, ho, hp, ht, hg]

lemma parse_noMatch (s : Str)
    (ho : findSub openerTok s = none)
    (hc : findSub closerTok s = none) :
    parse_response s = ⟨false, [], s, s⟩ := by
  have hpre := isPrefixOf_eq_false_of_findSub_eq_none closerTok s hc
  unfold parse_response searchChain searchThink searchFlexible searchUnclosed
  simp [hpre, ho, hc]

-- Claim theorems.

/-- C1 (amended): for every non-empty input, `parse_response` returns a
non-empty `answer`; the placeholder substitution guards every extraction
path, while the no-match passthrough returns the input itself, which is
non-empty by hypothesis. -/
theorem answer_ne_nil_of_ne_nil (s : Str) (h : s ≠ []) :
    (parse_response s).answer ≠ [] := by
  unfold parse_response
  split
  · exact orPlaceholder_ne_nil _
  · split
    · exact orPlaceholder_ne_nil _
    · split
      · split
        · exact h
        · split
          · exact orPlaceholder_ne_nil _
          · exact h
      · exact h

/-- C1 witness: the non-empty input `"x"` yields a non-empty answer. -/
theorem answer_ne_nil_witness :
    ("x".data : Str) ≠ [] ∧ (parse_response "x".data).answer ≠ [] :=
  ⟨by decide, answer_ne_nil_of_ne_nil "x".data (by decide)⟩

/-- C1 counterexample: on the empty string no rule matches, the passthrough
returns the input verbatim, and the answer is empty — no placeholder is
substituted, contradicting the claim that the answer is always non-empty. -/
theorem answer_empty_on_empty_input :
    (parse_response ([] : Str)).answer = [] := by decide

/-- C2 (amended): the malformed-interior rule applies only when, in addition
to non-empty leading text before a closer and no opener anywhere, the
content pattern matches — some closer must be followed by a whitespace run
containing a newline; `thinking` is the trimmed leading text before the
first closer, and `answer` is the trimmed text after that whitespace run
(placeholder when empty). -/
theorem interior_closer_requires_newline (s : Str) (p : Nat) (g : Str)
    (hpre : closerTok.isPrefixOf s = false)
    (ho : findSub openerTok s = none)
    (hp : findSub closerTok s = some p)
    (ht : pyStrip (s.take p) ≠ [])
    (hg : contentAfter s = some g) :
    parse_response s =
      ⟨true, pyStrip (s.take p), orPlaceholder (pyStrip g), s⟩ :=
  parse_interior s p g hpre ho hp ht hg

/-- C2 witness: with a newline after the closer the malformed-interior rule
does apply, splitting thinking from answer. -/
theorem interior_closer_witness :
    parse_response "Notes</think>\nFinal answer".data =
      ⟨true, "Notes".data, "Final answer".data,
        "Notes</think>\nFinal answer".data⟩ := by
  have h := interior_closer_requires_newline "Notes</think>\nFinal answer".data 5
    "Final answer".data (by decide) (by decide) (by decide) (by decide) (by decide)
  exact h.trans (by decide)

/-- C2 counterexample: on the claim's own example, where no newline follows
the closer, the content pattern fails and the parser falls through to the
no-match passthrough: `has_thinking` is false and the text is unchanged,
contradicting the claimed `has_thinking = True` split. -/
theorem interior_closer_without_newline_passthrough :
    (parse_response "Some leading notes</think>Final answer text".data).has_thinking
        = false ∧
      (parse_response "Some leading notes</think>Final answer text".data).answer =
        "Some leading notes</think>Final answer text".data := by decide

/-- C3 (amended): the dangling-closer branch fires only when the input
begins with `</think>` at position 0 — no leading whitespace is stripped
first.  When it fires, every occurrence of the closing token together with
the whitespace following it is deleted, the remainder is trimmed
(placeholder when empty), and `has_thinking` is false. -/
theorem dangling_closer_branch (s : Str) (h : closerTok.isPrefixOf s = true) :
    parse_response s =
      ⟨false, [], orPlaceholder (pyStrip (subClosers s)), s⟩ :=
  parse_dangling s h

/-- C3 witness: the spec's own example, with two closers each followed by
blank lines, reduces to the trailing text. -/
theorem dangling_closer_witness :
    parse_response "</think>\n\n</think>\n\nHello world".data =
      ⟨false, [], "Hello world".data,
        "</think>\n\n</think>\n\nHello world".data⟩ := by
  have h := dangling_closer_branch "</think>\n\n</think>\n\nHello world".data
    (by decide)
  exact h.trans (by decide)

/-- C3 counterexample: when the closer is preceded by whitespace, the branch
does not fire (`startswith` checks position 0 only); the input falls through
unchanged instead of being stripped to `"Hello"` as the claim requires. -/
theorem leading_whitespace_closer_passthrough :
    (parse_response "\n</think>Hello".data).answer ≠ "Hello".data ∧
      (parse_response "\n</think>Hello".data).answer = "\n</think>Hello".data := by
  decide

/-- C4 (amended): for an input whose first opener has no closer after it,
the flexible end-anchored pattern (tried before the double-line-break
pattern, which is thereby unreachable) captures everything from just after
the opener to the end of the string — not stopping at a double line-break —
except that a single trailing newline is left out of the capture; `thinking`
is the trimmed capture and `answer` is the input with the matched span
removed, then trimmed (placeholder when empty). -/
theorem unterminated_opener_flexible_capture (s : Str) (i : Nat)
    (hpre : closerTok.isPrefixOf s = false)
    (hi : findSub openerTok s = some i)
    (hn : findSub closerTok (s.drop (i + 7)) = none) :
    parse_response s =
      ⟨true, pyStrip (flexCap (s.drop (i + 7))),
        orPlaceholder (pyStrip
          (s.take i ++ s.drop (i + 7 + (flexCap (s.drop (i + 7))).length))),
        s⟩ :=
  parse_unterminated s i hpre hi hn

/-- C4 witness: the spec's unterminated example is captured to the end of
the string and the answer falls back to the placeholder. -/
theorem unterminated_opener_witness :
    parse_response "<think>partial reasoning with no end".data =
      ⟨true, "partial reasoning with no end".data, placeholder,
        "<think>partial reasoning with no end".data⟩ := by
  have h := unterminated_opener_flexible_capture
    "<think>partial reasoning with no end".data 0 (by decide) (by decide) (by decide)
  exact h.trans (by decide)

/-- C4 counterexample: with a double line-break inside the unterminated
reasoning, the capture runs past it to the end of the string instead of
stopping at the blank line as the claim requires. -/
theorem unterminated_capture_not_stopped_at_blank_line :
    (parse_response "<think>ab\n\ncd".data).thinking ≠ "ab".data ∧
      (parse_response "<think>ab\n\ncd".data).thinking = "ab\n\ncd".data := by decide

/-- C5 (amended): for an input not starting with the closer whose first
opener is later followed by a closer, the first such non-greedy pair is
used: `thinking` is the trimmed span between the delimiters, `has_thinking`
is true, and `answer` is the input with the whole opener-through-closer span
removed and then trimmed, with the fixed placeholder substituted when that
trim is empty. -/
theorem wellformed_pair_extraction (s : Str) (i p : Nat)
    (hpre : closerTok.isPrefixOf s = false)
    (hi : findSub openerTok s = some i)
    (hp : findSub closerTok (s.drop (i + 7)) = some p) :
    parse_response s =
      ⟨true, pyStrip ((s.drop (i + 7)).take p),
        orPlaceholder (pyStrip (s.take i ++ s.drop (i + 7 + p + 8))), s⟩ :=
  parse_pair s i p hpre hi hp

/-- C5 witness: the spec's round-trip example `"<think>T</think>A"` yields
thinking `"T"` and answer `"A"`. -/
theorem wellformed_pair_witness :
    parse_response "<think>T</think>A".data =
      ⟨true, "T".data, "A".data, "<think>T</think>A".data⟩ := by
  have h := wellformed_pair_extraction "<think>T</think>A".data 0 1
    (by decide) (by decide) (by decide)
  exact h.trans (by decide)

/-- C5 counterexample: when removing the opener-through-closer span leaves
nothing, the answer is the placeholder sentence, not the empty
removed-then-trimmed remainder the claim prescribes. -/
theorem wellformed_pair_empty_remainder_placeholder :
    (parse_response "<think>T</think>".data).answer ≠
        pyStrip ("<think>T</think>".data.take 0 ++ "<think>T</think>".data.drop 16) ∧
      (parse_response "<think>T</think>".data).answer = placeholder := by decide

/-- C6: on text containing neither delimiter token the parser is the
identity — the answer is the input itself, not even trimmed, and
`has_thinking` is false. -/
theorem clean_text_idempotent (s : Str)
    (ho : containsTok openerTok s = false)
    (hc : containsTok closerTok s = false) :
    parse_response s = ⟨false, [], s, s⟩ := by
  have ho' : findSub openerTok s = none := by
    cases hfo : findSub openerTok s with
    | none => rfl
    | some v => rw [containsTok, hfo] at ho; simp at ho
  have hc' : findSub closerTok s = none := by
    cases hfc : findSub closerTok s with
    | none => rfl
    | some v => rw [containsTok, hfc] at hc; simp at hc
  exact parse_noMatch s ho' hc'

/-- C6 witness: delimiter-free text passes through unchanged. -/
theorem clean_text_witness :
    parse_response "Hello world".data =
      ⟨false, [], "Hello world".data, "Hello world".data⟩ :=
  clean_text_idempotent "Hello world".data (by decide) (by decide)

/-- C7: the formatter is a pure projection: `message` is the answer,
`has_thinking` and the original text are copied through, and `thinking` is
present exactly when `has_thinking` is true — when it is false the field is
`none` (Python `None`), which is distinct from `some []` (an empty
string). -/
theorem format_projection (r : ParseResult) :
    (format_for_frontend r).message = r.answer ∧
      (format_for_frontend r).has_thinking = r.has_thinking ∧
      (format_for_frontend r).original_response = r.original ∧
      (format_for_frontend r).thinking =
        (if r.has_thinking then some r.thinking else none) :=
  ⟨rfl, rfl, rfl, rfl⟩

/-- C8: every resolution path stores the input verbatim in `original`, and
the formatter passes it through unchanged as `original_response`. -/
theorem original_preserved (s : Str) :
    (parse_response s).original = s ∧
      (format_for_frontend (parse_response s)).original_response = s := by
  have h1 : (parse_response s).original = s := by
    unfold parse_response
    split
    · rfl
    · split
      · rfl
      · split
        · split
          · rfl
          · split <;> rfl
        · rfl
  exact ⟨h1, h1⟩

/-- C9: when the pair the parser matches has whitespace-only interior, the
structural match still sets `has_thinking` to true while the trimmed
`thinking` text is empty. -/
theorem whitespace_only_thinking_match (s : Str) (i p : Nat)
    (hpre : closerTok.isPrefixOf s = false)
    (hi : findSub openerTok s = some i)
    (hp : findSub closerTok (s.drop (i + 7)) = some p)
    (hws : pyStrip ((s.drop (i + 7)).take p) = []) :
    (parse_response s).has_thinking = true ∧ (parse_response s).thinking = [] := by
  rw [parse_pair s i p hpre hi hp]
  exact ⟨rfl, hws⟩

/-- C9 witness: a pair enclosing only blank space still counts as thinking,
with empty thinking text. -/
theorem whitespace_only_thinking_witness :
    (parse_response "<think> \n </think>Answer text".data).has_thinking = true ∧
      (parse_response "<think> \n </think>Answer text".data).thinking = [] :=
  whitespace_only_thinking_match "<think> \n </think>Answer text".data 0 3
    (by decide) (by decide) (by decide) (by decide)

/-- C10: when the input begins with `</think>` at position 0, the dangling
branch takes absolute priority: even though a well-formed pair occurs later
(the hypotheses exhibit an opener followed by a closer), `has_thinking` is
false, `thinking` is empty, and the answer is the input with exactly the
closer tokens and the whitespace following each deleted, then trimmed
(placeholder when empty) — opener tokens are not touched. -/
theorem dangling_priority_over_pair (s : Str) (i p : Nat)
    (h : closerTok.isPrefixOf s = true)
    (hi : findSub openerTok s = some i)
    (hp : findSub closerTok (s.drop (i + 7)) = some p) :
    (parse_response s).has_thinking = false ∧
      (parse_response s).thinking = [] ∧
      (parse_response s).answer = orPlaceholder (pyStrip (subClosers s)) := by
  rw [parse_dangling s h]
  exact ⟨rfl, rfl, rfl⟩

/-- C10 witness: with a later well-formed pair, the answer keeps the opener
token verbatim while both closers and the pair structure are ignored. -/
theorem dangling_priority_witness :
    (parse_response "</think>a<think>T</think>b".data).has_thinking = false ∧
      (parse_response "</think>a<think>T</think>b".data).thinking = [] ∧
      (parse_response "</think>a<think>T</think>b".data).answer = "a<think>Tb".data := by
  have h := dangling_priority_over_pair "</think>a<think>T</think>b".data 9 1
    (by decide) (by decide) (by decide)
  exact ⟨h.1, h.2.1, h.2.2.trans (by decide)⟩

end ThinkingParser
